import Mathlib

/-!
Verification of the `cloudops-insight` service (`app/ai-insights/main.py`).

The service is a FastAPI app with two handlers:
* `q` runs a Prometheus instant query and extracts one scalar, returning the
  float NaN sentinel on every failure;
* `insights_now` fetches three metrics (cpu, mem, disk percent), applies fixed
  threshold rules to build a list of `Insight` records, appends a static cost
  hint, and wraps everything in an `InsightResponse`;
* `healthz` echoes static configuration.

The embedding models Python floats restricted to the values this program can
produce: rationals plus the NaN sentinel (IEEE infinities and the rounding of
decimal literals to binary are outside the model).  Python exceptions are
modelled with `Except Unit`: the `try`/`except` in `q` catches every exception
and returns NaN.
-/

/-- Model of the Python floats this program handles: a rational number or the
NaN sentinel used to mean "metric unavailable". -/
inductive PFloat
  | nan
  | num (x : ℚ)
deriving DecidableEq, Repr

namespace PFloat

/-- IEEE equality test `a == b`: NaN compares unequal to everything,
including itself. -/
def eqF : PFloat → PFloat → Bool
  | num a, num b => a == b
  | _, _ => false

/-- Python `a != b` on floats; `v != v` is the NaN check used by the code. -/
def neF (a b : PFloat) : Bool := !(eqF a b)

/-- IEEE `a > b`: any comparison involving NaN is false. -/
def gtF : PFloat → PFloat → Bool
  | num a, num b => decide (b < a)
  | _, _ => false

/-- IEEE `a < b`: any comparison involving NaN is false. -/
def ltF : PFloat → PFloat → Bool
  | num a, num b => decide (a < b)
  | _, _ => false

end PFloat

/-- Round a rational to an integer, ties to even — the rounding Python's
`format` applies for `:.1f` (on the model's exact rationals). -/
def rnd (y : ℚ) : ℤ :=
  let f : ℤ := ⌊y⌋
  let r : ℚ := y - f
  if r < 1/2 then f
  else if 1/2 < r then f + 1
  else if 2 ∣ f then f else f + 1

/-- Python `f"{x:.1f}"` on the model: the value rounded to one decimal place,
rendered with exactly one digit after the point. -/
def fmt1 (x : ℚ) : String :=
  let n : ℤ := rnd (10 * x)
  let sgn := if n < 0 then "-" else ""
  let m : ℕ := n.natAbs
  sgn ++ toString (m / 10) ++ "." ++ toString (m % 10)

/-- `f"{v:.1f}"` lifted to the float model; `nan` renders as `"nan"`. -/
def fmt1f : PFloat → String
  | .nan => "nan"
  | .num x => fmt1 x

/-- `class Insight(BaseModel)` from the source: title, severity
(`info|warning|critical` as a plain string), description, recommendations. -/
structure Insight where
  title : String
  severity : String
  description : String
  recommendations : List String
deriving DecidableEq, Repr

/-- `class InsightResponse(BaseModel)`: status, insights, and the raw metric
values keyed by name. -/
structure InsightResponse where
  status : String
  insights : List Insight
  raw : List (String × PFloat)
deriving DecidableEq, Repr

/-- The "No CPU metrics" warning insight (source lines 62–71). -/
def noCpuMetrics : Insight :=
  { title := "No CPU metrics"
    severity := "warning"
    description := "Prometheus query returned no CPU data. Node exporter or scrape config may be missing."
    recommendations :=
      ["Verify kube-prometheus-stack is installed and node-exporter is running.",
       "Check Prometheus targets page for scrape errors."] }

/-- The high-CPU critical insight, title embedding the value at one decimal
(source lines 73–81). -/
def highCpuUsage (cpu : PFloat) : Insight :=
  { title := "High CPU usage (" ++ fmt1f cpu ++ "%)"
    severity := "critical"
    description := "Sustained CPU > 85% can cause throttling and latency."
    recommendations :=
      ["Scale up EC2 instance (t3.medium → t3.large) or add a node.",
       "Enable HPA for busy workloads (target 60–70% CPU)."] }

/-- The low-CPU info insight (source lines 82–91). -/
def lowCpuHeadroom (cpu : PFloat) : Insight :=
  { title := "Low CPU headroom (" ++ fmt1f cpu ++ "%)"
    severity := "info"
    description := "CPU usage is consistently low—over-provisioning likely."
    recommendations :=
      ["Consider downsizing to t3.small or t3.micro to save cost.",
       "Consolidate low-traffic workloads."] }

/-- The "No Memory metrics" warning insight (source lines 93–98). -/
def noMemMetrics : Insight :=
  { title := "No Memory metrics"
    severity := "warning"
    description := "Prometheus query returned no Memory data."
    recommendations := ["Confirm node-exporter and proper scrape configs."] }

/-- The high-memory critical insight (source lines 100–108). -/
def highMemUsage (mem : PFloat) : Insight :=
  { title := "High Memory usage (" ++ fmt1f mem ++ "%)"
    severity := "critical"
    description := "Memory pressure increases OOM risk."
    recommendations :=
      ["Increase instance memory (t3.medium→t3.large).",
       "Tune pod requests/limits; enable VPA if appropriate."] }

/-- The low-memory info insight (source lines 109–117). -/
def lowMemUsage (mem : PFloat) : Insight :=
  { title := "Low Memory usage (" ++ fmt1f mem ++ "%)"
    severity := "info"
    description := "Plenty of unused memory—potential cost optimization."
    recommendations :=
      ["Downsize instance or pack more workloads.",
       "Reduce pod memory limits if set too high."] }

/-- The "No Disk metrics" warning insight (source lines 119–124). -/
def noDiskMetrics : Insight :=
  { title := "No Disk metrics"
    severity := "warning"
    description := "Prometheus query returned no Disk data for '/'."
    recommendations := ["Verify node-exporter mount points and filesystem metrics."] }

/-- The high-disk critical insight (source lines 126–134). -/
def highDiskUsage (disk : PFloat) : Insight :=
  { title := "Disk usage high (" ++ fmt1f disk ++ "%)"
    severity := "critical"
    description := "Running low on disk can crash pods and databases."
    recommendations :=
      ["Expand root volume (gp3) from 30GB to 50GB+, then grow FS.",
       "Prune images and old logs; add retention policies."] }

/-- The healthy-disk info insight (source lines 135–141). -/
def healthyDiskUsage (disk : PFloat) : Insight :=
  { title := "Disk usage healthy (" ++ fmt1f disk ++ "%)"
    severity := "info"
    description := "No immediate storage pressure."
    recommendations := ["Keep image pruning and log rotation in place."] }

/-- The static cost-heuristic insight appended to every response
(source lines 148–158, bound to the name `cost_hint` there). -/
def cost_hint : Insight :=
  { title := "Cost heuristic"
    severity := "info"
    description := "Approximate instance rightsizing suggestion based on CPU/Memory."
    recommendations :=
      ["If CPU<20% and Mem<30% for 24h: consider t3.small (~50% cheaper).",
       "If CPU>85% or Mem>85% often: consider t3.large or add a node."] }

/-- The CPU branch of `insights_now`: `if cpu != cpu` (NaN) then the missing
warning, `elif cpu > 85` the critical insight, `elif cpu < 20` the low-usage
insight, else nothing (source lines 62–91). -/
def cpuInsights (cpu : PFloat) : List Insight :=
  if PFloat.neF cpu cpu then [noCpuMetrics]
  else if PFloat.gtF cpu (.num 85) then [highCpuUsage cpu]
  else if PFloat.ltF cpu (.num 20) then [lowCpuHeadroom cpu]
  else []

/-- The memory branch of `insights_now`: thresholds `> 85` / `< 30`
(source lines 93–117). -/
def memInsights (mem : PFloat) : List Insight :=
  if PFloat.neF mem mem then [noMemMetrics]
  else if PFloat.gtF mem (.num 85) then [highMemUsage mem]
  else if PFloat.ltF mem (.num 30) then [lowMemUsage mem]
  else []

/-- The disk branch of `insights_now`: thresholds `> 80` / `< 50`
(source lines 119–146). -/
def diskInsights (disk : PFloat) : List Insight :=
  if PFloat.neF disk disk then [noDiskMetrics]
  else if PFloat.gtF disk (.num 80) then [highDiskUsage disk]
  else if PFloat.ltF disk (.num 50) then [healthyDiskUsage disk]
  else []

/-- The insight-generation section of `insights_now` (source lines 57–159):
the three per-metric branches run in order cpu, mem, disk, appending to one
list, then `cost_hint` is appended. -/
def generate (cpu mem disk : PFloat) : List Insight :=
  cpuInsights cpu ++ memInsights mem ++ diskInsights disk ++ [cost_hint]

/-- JSON values as produced by `r.json()` (Python's `json` module maps
`null` to `None`, so `null` also stands for Python `None`).  The bodies this
service receives contain no booleans, so they are omitted. -/
inductive Json
  | null
  | str (s : String)
  | num (x : ℚ)
  | arr (xs : List Json)
  | obj (kvs : List (String × Json))

namespace Json

/-- Python truthiness of a JSON value (`if not result`, `a or b`). -/
def truthy : Json → Bool
  | .null => false
  | .str s => s ≠ ""
  | .num x => x ≠ 0
  | .arr xs => !xs.isEmpty
  | .obj kvs => !kvs.isEmpty

/-- Python `d.get(k, default)`: raises (AttributeError) unless `d` is a dict,
otherwise returns the value or the default. -/
def get : Json → String → Json → Except Unit Json
  | .obj kvs, k, d => pure ((kvs.lookup k).getD d)
  | _, _, _ => .error ()

/-- Python `d[k]` for a string key: KeyError when absent, TypeError on
non-dicts. -/
def item : Json → String → Except Unit Json
  | .obj kvs, k =>
      match kvs.lookup k with
      | some v => pure v
      | none => .error ()
  | _, _ => .error ()

/-- Python `v[i]` with an integer index: negative indices count from the end;
lists yield the element, strings yield a one-character string; anything else
(or out of range) raises. -/
def index : Json → ℤ → Except Unit Json
  | .arr xs, i =>
      let j : ℤ := if i < 0 then i + xs.length else i
      if h : 0 ≤ j ∧ j.toNat < xs.length then pure (xs.get ⟨j.toNat, h.2⟩)
      else .error ()
  | .str s, i =>
      let cs := s.data
      let j : ℤ := if i < 0 then i + cs.length else i
      if h : 0 ≤ j ∧ j.toNat < cs.length then pure (.str (String.mk [cs.get ⟨j.toNat, h.2⟩]))
      else .error ()
  | _, _ => .error ()

/-- `data.get("status") != "success"` specialised: the code only compares the
status against the string `"success"`. -/
def isSuccess : Json → Bool
  | .str s => s == "success"
  | _ => false

end Json

/-- Numeric value of a list of decimal digit characters. -/
def digitsVal (cs : List Char) : ℕ :=
  cs.foldl (fun n c => 10 * n + (c.toNat - '0'.toNat)) 0

/-- Strip leading and trailing whitespace, as Python `float` does before
parsing. -/
def pyStrip (cs : List Char) : List Char :=
  ((cs.dropWhile Char.isWhitespace).reverse.dropWhile Char.isWhitespace).reverse

/-- Split a character list at every `.` (the groups between dots). -/
def splitOnDot : List Char → List (List Char)
  | [] => [[]]
  | c :: rest =>
      if c = '.' then [] :: splitOnDot rest
      else
        match splitOnDot rest with
        | [] => [[c]]
        | g :: gs => (c :: g) :: gs

/-- Python `float(s)` on the strings this model covers: optional surrounding
whitespace, optional sign, then either `nan` (any case) or decimal digits with
an optional fractional part (`"12"`, `"12."`, `".5"`, `"12.5"`).  Exponents,
infinities and underscore separators are outside the model; unparsable
strings give `none` (a ValueError in Python). -/
def pyParseFloat (s : String) : Option PFloat :=
  let cs := pyStrip s.data
  let sgncs : ℚ × List Char :=
    match cs with
    | '-' :: rest => (-1, rest)
    | '+' :: rest => (1, rest)
    | _ => (1, cs)
  let sgn := sgncs.1
  let body := sgncs.2
  if body.map Char.toLower = ['n', 'a', 'n'] then some .nan
  else
    match splitOnDot body with
    | [a] =>
        if a ≠ [] ∧ a.all Char.isDigit then some (.num (sgn * digitsVal a))
        else none
    | [a, b] =>
        if (a ≠ [] ∨ b ≠ []) ∧ a.all Char.isDigit ∧ b.all Char.isDigit then
          some (.num (sgn * ((digitsVal a : ℚ) + (digitsVal b : ℚ) / 10 ^ b.length)))
        else none
    | _ => none

/-- Python `float(v)` on a JSON value: numbers pass through, strings are
parsed, everything else raises (TypeError / ValueError). -/
def pyFloat : Json → Except Unit PFloat
  | .num x => pure (.num x)
  | .str s =>
      match pyParseFloat s with
      | some v => pure v
      | none => .error ()
  | _ => .error ()

/-- Outcome of the `requests.get(...)` call in `q`, as seen by the `try`
block: a connection error or timeout (the call raises), a response whose
HTTP status makes `raise_for_status()` raise, a 2xx response whose body is
not valid JSON (`r.json()` raises), or a 2xx response with a parsed JSON
body. -/
inductive BackendInteraction
  | timeout
  | httpError (code : ℕ)
  | badJson
  | response (body : Json)

/-- The body of the `try` block in `q` after the response JSON `data` is in
hand (source lines 27–35): check `status == "success"`, take
`data["data"]["result"]`, bail out to NaN when empty, then
`result[0].get("value") or result[0].get("values", [None])[-1]` and
`float(val[1])`.  Any `.error` is an uncaught Python exception. -/
def qTry (data : Json) : Except Unit PFloat := do
  let status ← Json.get data "status" .null
  if !Json.isSuccess status then return .nan
  else
    let d ← Json.item data "data"
    let result ← Json.item d "result"
    if !result.truthy then return .nan
    else
      let r0 ← Json.index result 0
      let v1 ← Json.get r0 "value" .null
      let val ←
        if v1.truthy then pure v1
        else do
          let vs ← Json.get r0 "values" (.arr [.null])
          Json.index vs (-1)
      let x ← Json.index val 1
      pyFloat x

/-- `def q(query)` (source lines 22–37): the `except Exception: return
float("nan")` collapses every failure — network, HTTP status, JSON decoding,
shape errors, numeric parsing — to NaN, so `q` is a total function of the
backend interaction and never propagates an exception. -/
def q : BackendInteraction → PFloat
  | .timeout => .nan
  | .httpError _ => .nan
  | .badJson => .nan
  | .response body =>
      match qTry body with
      | .ok v => v
      | .error _ => .nan

/-- `def safe(v, default=float("nan"))` (source lines 39–40): the
`isinstance(v, (int, float))` guard always passes on the floats `q` returns,
so on this domain it is the identity. -/
def safe (v : PFloat) : PFloat := v

/-- The default backend base URL: `os.getenv("PROM_URL",
"http://localhost:9090")` when the variable is unset. -/
def PROM_URL_default : String := "http://localhost:9090"

/-- Values appearing in the `healthz` payload. -/
inductive PyVal
  | bool (b : Bool)
  | str (s : String)
deriving DecidableEq, Repr

/-- `def healthz()` (source lines 42–44): returns `{"ok": True, "prom":
PROM_URL}` — a pure echo of the configured URL, no external call.  The
configuration is passed explicitly. -/
def healthz (PROM_URL : String) : List (String × PyVal) :=
  [("ok", .bool true), ("prom", .str PROM_URL)]

/-- `def insights_now()` (source lines 46–165) as a function of the three
backend interactions its `q` calls observe: fetch cpu, mem, disk through
`safe ∘ q`, generate the insight list, and assemble the response with
`status := "ok"` and the raw values. -/
def insights_now (cpuR memR diskR : BackendInteraction) : InsightResponse :=
  let cpu := safe (q cpuR)
  let mem := safe (q memR)
  let disk := safe (q diskR)
  { status := "ok"
    insights := generate cpu mem disk
    raw := [("cpu_pct", cpu), ("mem_pct", mem), ("disk_pct", disk)] }

/-- The response-body shape of the backend query API (spec §6):
`{status: ..., data: {result: ...}}`. -/
def promBody (status : String) (result : Json) : Json :=
  .obj [("status", .str status), ("data", .obj [("result", result)])]

/-- Number of insights in `l` carrying description `d`.  Every insight kind
of the program has a distinct constant description, so this counts the
occurrences of that kind. -/
def countDesc (l : List Insight) (d : String) : ℕ :=
  (l.filter fun i => i.description == d).length

/-- Description of the "No CPU metrics" insight. -/
def noCpuDesc : String :=
  "Prometheus query returned no CPU data. Node exporter or scrape config may be missing."

/-- Description of the high-CPU critical insight. -/
def highCpuDesc : String := "Sustained CPU > 85% can cause throttling and latency."

/-- Description of the low-CPU info insight. -/
def lowCpuDesc : String := "CPU usage is consistently low—over-provisioning likely."

/-- Description of the "No Memory metrics" insight. -/
def noMemDesc : String := "Prometheus query returned no Memory data."

/-- Description of the high-memory critical insight. -/
def highMemDesc : String := "Memory pressure increases OOM risk."

/-- Description of the low-memory info insight. -/
def lowMemDesc : String := "Plenty of unused memory—potential cost optimization."

/-- Description of the "No Disk metrics" insight. -/
def noDiskDesc : String := "Prometheus query returned no Disk data for '/'."

/-- Description of the high-disk critical insight. -/
def highDiskDesc : String := "Running low on disk can crash pods and databases."

/-- Description of the healthy-disk info insight. -/
def healthyDiskDesc : String := "No immediate storage pressure."

lemma cpuInsights_nan : cpuInsights .nan = [noCpuMetrics] := rfl

lemma cpuInsights_num_high {x : ℚ} (h : 85 < x) :
    cpuInsights (.num x) = [highCpuUsage (.num x)] := by
  simp [cpuInsights, PFloat.neF, PFloat.eqF, PFloat.gtF, h]

lemma cpuInsights_num_low {x : ℚ} (h1 : ¬ 85 < x) (h2 : x < 20) :
    cpuInsights (.num x) = [lowCpuHeadroom (.num x)] := by
  simp [cpuInsights, PFloat.neF, PFloat.eqF, PFloat.gtF, PFloat.ltF, h1, h2]

lemma cpuInsights_num_mid {x : ℚ} (h1 : ¬ 85 < x) (h2 : ¬ x < 20) :
    cpuInsights (.num x) = [] := by
  simp [cpuInsights, PFloat.neF, PFloat.eqF, PFloat.gtF, PFloat.ltF, h1, h2]

lemma memInsights_nan : memInsights .nan = [noMemMetrics] := rfl

lemma memInsights_num_high {x : ℚ} (h : 85 < x) :
    memInsights (.num x) = [highMemUsage (.num x)] := by
  simp [memInsights, PFloat.neF, PFloat.eqF, PFloat.gtF, h]

lemma memInsights_num_low {x : ℚ} (h1 : ¬ 85 < x) (h2 : x < 30) :
    memInsights (.num x) = [lowMemUsage (.num x)] := by
  simp [memInsights, PFloat.neF, PFloat.eqF, PFloat.gtF, PFloat.ltF, h1, h2]

lemma memInsights_num_mid {x : ℚ} (h1 : ¬ 85 < x) (h2 : ¬ x < 30) :
    memInsights (.num x) = [] := by
  simp [memInsights, PFloat.neF, PFloat.eqF, PFloat.gtF, PFloat.ltF, h1, h2]

lemma diskInsights_nan : diskInsights .nan = [noDiskMetrics] := rfl

lemma diskInsights_num_high {x : ℚ} (h : 80 < x) :
    diskInsights (.num x) = [highDiskUsage (.num x)] := by
  simp [diskInsights, PFloat.neF, PFloat.eqF, PFloat.gtF, h]

lemma diskInsights_num_low {x : ℚ} (h1 : ¬ 80 < x) (h2 : x < 50) :
    diskInsights (.num x) = [healthyDiskUsage (.num x)] := by
  simp [diskInsights, PFloat.neF, PFloat.eqF, PFloat.gtF, PFloat.ltF, h1, h2]

lemma diskInsights_num_mid {x : ℚ} (h1 : ¬ 80 < x) (h2 : ¬ x < 50) :
    diskInsights (.num x) = [] := by
  simp [diskInsights, PFloat.neF, PFloat.eqF, PFloat.gtF, PFloat.ltF, h1, h2]

lemma countDesc_nil (d : String) : countDesc [] d = 0 := rfl

lemma countDesc_append (a b : List Insight) (d : String) :
    countDesc (a ++ b) d = countDesc a d + countDesc b d := by
  simp [countDesc]

lemma countDesc_singleton (i : Insight) (d : String) :
    countDesc [i] d = if i.description = d then 1 else 0 := by
  by_cases h : i.description = d <;> simp [countDesc, h]

lemma length_cpuInsights_le_one (c : PFloat) : (cpuInsights c).length ≤ 1 := by
  cases c with
  | nan => simp [cpuInsights_nan]
  | num x =>
      by_cases h1 : 85 < x
      · simp [cpuInsights_num_high h1]
      · by_cases h2 : x < 20
        · simp [cpuInsights_num_low h1 h2]
        · simp [cpuInsights_num_mid h1 h2]

lemma length_memInsights_le_one (m : PFloat) : (memInsights m).length ≤ 1 := by
  cases m with
  | nan => simp [memInsights_nan]
  | num x =>
      by_cases h1 : 85 < x
      · simp [memInsights_num_high h1]
      · by_cases h2 : x < 30
        · simp [memInsights_num_low h1 h2]
        · simp [memInsights_num_mid h1 h2]

lemma length_diskInsights_le_one (d : PFloat) : (diskInsights d).length ≤ 1 := by
  cases d with
  | nan => simp [diskInsights_nan]
  | num x =>
      by_cases h1 : 80 < x
      · simp [diskInsights_num_high h1]
      · by_cases h2 : x < 50
        · simp [diskInsights_num_low h1 h2]
        · simp [diskInsights_num_mid h1 h2]

lemma memInsights_cpu_descs (m : PFloat) :
    countDesc (memInsights m) noCpuDesc = 0 ∧
    countDesc (memInsights m) highCpuDesc = 0 ∧
    countDesc (memInsights m) lowCpuDesc = 0 := by
  cases m with
  | nan => refine ⟨?_, ?_, ?_⟩ <;> decide
  | num x =>
      by_cases h1 : 85 < x
      · rw [memInsights_num_high h1]
        refine ⟨?_, ?_, ?_⟩ <;>
          (rw [countDesc_singleton]; simp [highMemUsage, noCpuDesc, highCpuDesc, lowCpuDesc])
      · by_cases h2 : x < 30
        · rw [memInsights_num_low h1 h2]
          refine ⟨?_, ?_, ?_⟩ <;>
            (rw [countDesc_singleton]; simp [lowMemUsage, noCpuDesc, highCpuDesc, lowCpuDesc])
        · rw [memInsights_num_mid h1 h2]
          exact ⟨rfl, rfl, rfl⟩

lemma diskInsights_cpu_descs (d : PFloat) :
    countDesc (diskInsights d) noCpuDesc = 0 ∧
    countDesc (diskInsights d) highCpuDesc = 0 ∧
    countDesc (diskInsights d) lowCpuDesc = 0 := by
  cases d with
  | nan => refine ⟨?_, ?_, ?_⟩ <;> decide
  | num x =>
      by_cases h1 : 80 < x
      · rw [diskInsights_num_high h1]
        refine ⟨?_, ?_, ?_⟩ <;>
          (rw [countDesc_singleton]; simp [highDiskUsage, noCpuDesc, highCpuDesc, lowCpuDesc])
      · by_cases h2 : x < 50
        · rw [diskInsights_num_low h1 h2]
          refine ⟨?_, ?_, ?_⟩ <;>
            (rw [countDesc_singleton]; simp [healthyDiskUsage, noCpuDesc, highCpuDesc, lowCpuDesc])
        · rw [diskInsights_num_mid h1 h2]
          exact ⟨rfl, rfl, rfl⟩

lemma cpuInsights_descs (c : PFloat) :
    ∀ i ∈ cpuInsights c, i.description ∈ [noCpuDesc, highCpuDesc, lowCpuDesc] := by
  cases c with
  | nan =>
      rw [cpuInsights_nan]; intro i hi; simp only [List.mem_singleton] at hi; subst hi
      simp [noCpuMetrics, noCpuDesc]
  | num x =>
      by_cases h1 : 85 < x
      · rw [cpuInsights_num_high h1]; intro i hi; simp only [List.mem_singleton] at hi; subst hi
        simp [highCpuUsage, highCpuDesc]
      · by_cases h2 : x < 20
        · rw [cpuInsights_num_low h1 h2]; intro i hi; simp only [List.mem_singleton] at hi
          subst hi; simp [lowCpuHeadroom, lowCpuDesc]
        · rw [cpuInsights_num_mid h1 h2]; intro i hi; simp at hi

lemma memInsights_descs (m : PFloat) :
    ∀ i ∈ memInsights m, i.description ∈ [noMemDesc, highMemDesc, lowMemDesc] := by
  cases m with
  | nan =>
      rw [memInsights_nan]; intro i hi; simp only [List.mem_singleton] at hi; subst hi
      simp [noMemMetrics, noMemDesc]
  | num x =>
      by_cases h1 : 85 < x
      · rw [memInsights_num_high h1]; intro i hi; simp only [List.mem_singleton] at hi; subst hi
        simp [highMemUsage, highMemDesc]
      · by_cases h2 : x < 30
        · rw [memInsights_num_low h1 h2]; intro i hi; simp only [List.mem_singleton] at hi
          subst hi; simp [lowMemUsage, lowMemDesc]
        · rw [memInsights_num_mid h1 h2]; intro i hi; simp at hi

lemma diskInsights_descs (d : PFloat) :
    ∀ i ∈ diskInsights d, i.description ∈ [noDiskDesc, highDiskDesc, healthyDiskDesc] := by
  cases d with
  | nan =>
      rw [diskInsights_nan]; intro i hi; simp only [List.mem_singleton] at hi; subst hi
      simp [noDiskMetrics, noDiskDesc]
  | num x =>
      by_cases h1 : 80 < x
      · rw [diskInsights_num_high h1]; intro i hi; simp only [List.mem_singleton] at hi; subst hi
        simp [highDiskUsage, highDiskDesc]
      · by_cases h2 : x < 50
        · rw [diskInsights_num_low h1 h2]; intro i hi; simp only [List.mem_singleton] at hi
          subst hi; simp [healthyDiskUsage, healthyDiskDesc]
        · rw [diskInsights_num_mid h1 h2]; intro i hi; simp at hi

lemma countDesc_generate (cpu mem disk : PFloat) (d : String) :
    countDesc (generate cpu mem disk) d =
      countDesc (cpuInsights cpu) d + countDesc (memInsights mem) d +
      countDesc (diskInsights disk) d + countDesc [cost_hint] d := by
  rw [generate, countDesc_append, countDesc_append, countDesc_append]

/-- C2: for every non-NaN cpu value strictly greater than 85 (any mem and
disk values), the generated insight list contains exactly one
critical-severity CPU insight, its title embeds the cpu value formatted to
one decimal place, and the list contains no low/healthy CPU insight and no
"no metrics" CPU warning. -/
theorem high_cpu_emits_one_critical (cpu : ℚ) (mem disk : PFloat) (h : 85 < cpu) :
    countDesc (generate (.num cpu) mem disk) highCpuDesc = 1 ∧
    highCpuUsage (.num cpu) ∈ generate (.num cpu) mem disk ∧
    (highCpuUsage (.num cpu)).title = "High CPU usage (" ++ fmt1 cpu ++ "%)" ∧
    (highCpuUsage (.num cpu)).severity = "critical" ∧
    countDesc (generate (.num cpu) mem disk) lowCpuDesc = 0 ∧
    countDesc (generate (.num cpu) mem disk) noCpuDesc = 0 := by
  have hm := memInsights_cpu_descs mem
  have hd := diskInsights_cpu_descs disk
  refine ⟨?_, ?_, rfl, rfl, ?_, ?_⟩
  · rw [countDesc_generate, cpuInsights_num_high h, hm.2.1, hd.2.1,
        countDesc_singleton, countDesc_singleton]
    simp [highCpuUsage, cost_hint, highCpuDesc]
  · rw [generate, cpuInsights_num_high h]
    simp
  · rw [countDesc_generate, cpuInsights_num_high h, hm.2.2, hd.2.2,
        countDesc_singleton, countDesc_singleton]
    simp [highCpuUsage, cost_hint, lowCpuDesc]
  · rw [countDesc_generate, cpuInsights_num_high h, hm.1, hd.1,
        countDesc_singleton, countDesc_singleton]
    simp [highCpuUsage, cost_hint, noCpuDesc]

/-- Witness for C2 at cpu = 90, mem = 10, disk = 60. -/
theorem high_cpu_emits_one_critical_witness :
    countDesc (generate (.num 90) (.num 10) (.num 60)) highCpuDesc = 1 ∧
    highCpuUsage (.num 90) ∈ generate (.num 90) (.num 10) (.num 60) ∧
    (highCpuUsage (.num 90)).title = "High CPU usage (" ++ fmt1 90 ++ "%)" ∧
    (highCpuUsage (.num 90)).severity = "critical" ∧
    countDesc (generate (.num 90) (.num 10) (.num 60)) lowCpuDesc = 0 ∧
    countDesc (generate (.num 90) (.num 10) (.num 60)) noCpuDesc = 0 :=
  high_cpu_emits_one_critical 90 (.num 10) (.num 60) (by norm_num)

/-- C3: threshold comparisons are strict — a metric value in the closed
between-thresholds band (cpu ∈ [20, 85], mem ∈ [30, 85], disk ∈ [50, 80])
produces no insight for that metric, boundary values included, and when all
three are in band the whole generated list is just the static cost hint. -/
theorem between_thresholds_no_insight :
    (∀ x : ℚ, 20 ≤ x → x ≤ 85 → cpuInsights (.num x) = []) ∧
    (∀ x : ℚ, 30 ≤ x → x ≤ 85 → memInsights (.num x) = []) ∧
    (∀ x : ℚ, 50 ≤ x → x ≤ 80 → diskInsights (.num x) = []) ∧
    (∀ cpu mem disk : ℚ, 20 ≤ cpu → cpu ≤ 85 → 30 ≤ mem → mem ≤ 85 →
      50 ≤ disk → disk ≤ 80 →
      generate (.num cpu) (.num mem) (.num disk) = [cost_hint]) := by
  have hc : ∀ x : ℚ, 20 ≤ x → x ≤ 85 → cpuInsights (.num x) = [] := fun x h1 h2 =>
    cpuInsights_num_mid (not_lt.mpr h2) (not_lt.mpr h1)
  have hm : ∀ x : ℚ, 30 ≤ x → x ≤ 85 → memInsights (.num x) = [] := fun x h1 h2 =>
    memInsights_num_mid (not_lt.mpr h2) (not_lt.mpr h1)
  have hd : ∀ x : ℚ, 50 ≤ x → x ≤ 80 → diskInsights (.num x) = [] := fun x h1 h2 =>
    diskInsights_num_mid (not_lt.mpr h2) (not_lt.mpr h1)
  refine ⟨hc, hm, hd, ?_⟩
  intro cpu mem disk h1 h2 h3 h4 h5 h6
  rw [generate, hc cpu h1 h2, hm mem h3 h4, hd disk h5 h6]
  rfl

/-- Witness for C3 at the boundary values cpu = 20 and cpu = 85, mem = 30,
disk = 50, and the in-band triple (50, 50, 60). -/
theorem between_thresholds_no_insight_witness :
    cpuInsights (.num 20) = [] ∧ cpuInsights (.num 85) = [] ∧
    memInsights (.num 30) = [] ∧ memInsights (.num 85) = [] ∧
    diskInsights (.num 50) = [] ∧ diskInsights (.num 80) = [] ∧
    generate (.num 50) (.num 50) (.num 60) = [cost_hint] :=
  ⟨between_thresholds_no_insight.1 20 (by norm_num) (by norm_num),
   between_thresholds_no_insight.1 85 (by norm_num) (by norm_num),
   between_thresholds_no_insight.2.1 30 (by norm_num) (by norm_num),
   between_thresholds_no_insight.2.1 85 (by norm_num) (by norm_num),
   between_thresholds_no_insight.2.2.1 50 (by norm_num) (by norm_num),
   between_thresholds_no_insight.2.2.1 80 (by norm_num) (by norm_num),
   between_thresholds_no_insight.2.2.2 50 50 60 (by norm_num) (by norm_num)
     (by norm_num) (by norm_num) (by norm_num) (by norm_num)⟩

/-- C4: when cpu is NaN, whatever mem and disk are, the generated list
contains exactly one "no metrics" CPU insight, of warning severity, and no
threshold-based CPU insight; the NaN test in the code is the value being
unequal to itself (`cpu != cpu`), which holds only for NaN. -/
theorem nan_cpu_emits_one_warning (mem disk : PFloat) :
    countDesc (generate .nan mem disk) noCpuDesc = 1 ∧
    noCpuMetrics ∈ generate .nan mem disk ∧
    noCpuMetrics.severity = "warning" ∧
    countDesc (generate .nan mem disk) highCpuDesc = 0 ∧
    countDesc (generate .nan mem disk) lowCpuDesc = 0 ∧
    PFloat.neF .nan .nan = true ∧
    (∀ x : ℚ, PFloat.neF (.num x) (.num x) = false) := by
  have hm := memInsights_cpu_descs mem
  have hd := diskInsights_cpu_descs disk
  refine ⟨?_, ?_, rfl, ?_, ?_, rfl, ?_⟩
  · rw [countDesc_generate, cpuInsights_nan, hm.1, hd.1,
        countDesc_singleton, countDesc_singleton]
    simp [noCpuMetrics, cost_hint, noCpuDesc]
  · rw [generate, cpuInsights_nan]
    simp
  · rw [countDesc_generate, cpuInsights_nan, hm.2.1, hd.2.1,
        countDesc_singleton, countDesc_singleton]
    simp [noCpuMetrics, cost_hint, highCpuDesc]
  · rw [countDesc_generate, cpuInsights_nan, hm.2.2, hd.2.2,
        countDesc_singleton, countDesc_singleton]
    simp [noCpuMetrics, cost_hint, lowCpuDesc]
  · intro x
    simp [PFloat.neF, PFloat.eqF]

/-- C5: for every input triple the static info-severity "Cost heuristic"
insight — a fixed constant, independent of the values — is appended after
the three per-metric segments and is present in the generated list, with its
two fixed recommendation strings. -/
theorem cost_heuristic_always_appended (cpu mem disk : PFloat) :
    generate cpu mem disk =
      cpuInsights cpu ++ memInsights mem ++ diskInsights disk ++ [cost_hint] ∧
    cost_hint ∈ generate cpu mem disk ∧
    cost_hint.severity = "info" ∧
    cost_hint.title = "Cost heuristic" ∧
    cost_hint.recommendations =
      ["If CPU<20% and Mem<30% for 24h: consider t3.small (~50% cheaper).",
       "If CPU>85% or Mem>85% often: consider t3.large or add a node."] := by
  refine ⟨rfl, ?_, rfl, rfl, rfl⟩
  unfold generate
  simp

/-- C6: the generated list is exactly the CPU segment, then the memory
segment, then the disk segment, then the cost hint; each per-metric segment
holds at most one insight (so a metric never gets both its missing warning
and a threshold insight), and every insight in a segment belongs to that
metric (witnessed by its constant description). -/
theorem metric_order_and_at_most_one (cpu mem disk : PFloat) :
    generate cpu mem disk =
      cpuInsights cpu ++ memInsights mem ++ diskInsights disk ++ [cost_hint] ∧
    (cpuInsights cpu).length ≤ 1 ∧
    (memInsights mem).length ≤ 1 ∧
    (diskInsights disk).length ≤ 1 ∧
    (∀ i ∈ cpuInsights cpu, i.description ∈ [noCpuDesc, highCpuDesc, lowCpuDesc]) ∧
    (∀ i ∈ memInsights mem, i.description ∈ [noMemDesc, highMemDesc, lowMemDesc]) ∧
    (∀ i ∈ diskInsights disk, i.description ∈ [noDiskDesc, highDiskDesc, healthyDiskDesc]) :=
  ⟨rfl, length_cpuInsights_le_one cpu, length_memInsights_le_one mem,
   length_diskInsights_le_one disk, cpuInsights_descs cpu, memInsights_descs mem,
   diskInsights_descs disk⟩

/-- C9: insight generation is deterministic — the handler output is a pure
function of the three backend interactions, and the generated insight list a
pure function of the three metric values: identical inputs give identical
outputs, field for field and in the same order. -/
theorem generation_deterministic :
    (∀ a b c a2 b2 c2 : BackendInteraction, a = a2 → b = b2 → c = c2 →
      insights_now a b c = insights_now a2 b2 c2) ∧
    (∀ u v w u2 v2 w2 : PFloat, u = u2 → v = v2 → w = w2 →
      generate u v w = generate u2 v2 w2) := by
  constructor <;> (intro _ _ _ _ _ _ h1 h2 h3; rw [h1, h2, h3])

/-- Witness for C9 at a concrete repeated interaction/value triple. -/
theorem generation_deterministic_witness :
    insights_now .timeout .timeout .timeout = insights_now .timeout .timeout .timeout ∧
    generate .nan (.num 50) (.num 60) = generate .nan (.num 50) (.num 60) :=
  ⟨generation_deterministic.1 .timeout .timeout .timeout .timeout .timeout .timeout
     rfl rfl rfl,
   generation_deterministic.2 .nan (.num 50) (.num 60) .nan (.num 50) (.num 60)
     rfl rfl rfl⟩

/-- C10: for every input triple the generated list has between 1 and 4
insights (at most one per metric plus the always-present cost hint), the
cost hint is its last element, and the handler's response carries exactly
this list. -/
theorem insights_length_bounds_cost_last :
    (∀ cpu mem disk : PFloat,
      1 ≤ (generate cpu mem disk).length ∧
      (generate cpu mem disk).length ≤ 4 ∧
      (generate cpu mem disk).getLast? = some cost_hint) ∧
    (∀ a b c : BackendInteraction,
      (insights_now a b c).insights = generate (safe (q a)) (safe (q b)) (safe (q c))) := by
  constructor
  · intro cpu mem disk
    have hc := length_cpuInsights_le_one cpu
    have hm := length_memInsights_le_one mem
    have hd := length_diskInsights_le_one disk
    refine ⟨?_, ?_, ?_⟩
    · simp only [generate, List.length_append, List.length_singleton]
      omega
    · simp only [generate, List.length_append, List.length_singleton]
      omega
    · rw [generate, List.getLast?_concat]
  · intro a b c
    rfl

lemma exc_bind_ok {α β : Type} (a : α) (f : α → Except Unit β) :
    (Except.ok a : Except Unit α) >>= f = f a := rfl

lemma exc_bind_error {α β : Type} (f : α → Except Unit β) :
    (Except.error () : Except Unit α) >>= f = .error () := rfl

lemma exc_pure {α : Type} (a : α) : (pure a : Except Unit α) = .ok a := rfl

lemma qTry_not_success (kvs : List (String × Json))
    (h : Json.isSuccess ((kvs.lookup "status").getD .null) = false) :
    qTry (.obj kvs) = .ok .nan := by
  unfold qTry
  simp [Json.get, exc_bind_ok, exc_pure, h]

lemma qTry_promBody_cons (kvs : List (String × Json)) (rest : List Json) :
    qTry (promBody "success" (.arr (.obj kvs :: rest))) =
      (if ((kvs.lookup "value").getD .null).truthy
       then Json.index ((kvs.lookup "value").getD .null) 1 >>= pyFloat
       else Json.index ((kvs.lookup "values").getD (.arr [.null])) (-1) >>=
            fun y => Json.index y 1 >>= pyFloat) := by
  unfold qTry promBody
  simp [Json.get, Json.item, Json.isSuccess, Json.truthy, List.lookup,
        Json.index, exc_bind_ok, exc_pure]

lemma q_response_of_qTry_ok {body : Json} {v : PFloat} (h : qTry body = .ok v) :
    q (.response body) = v := by
  simp [q, h]

lemma q_response_of_qTry_error {body : Json} (h : qTry body = .error ()) :
    q (.response body) = .nan := by
  simp [q, h]

/-- Extraction of the scalar from a `[timestamp, value]` pair as the code
performs it: `float(val[1])`, with any exception collapsing to NaN. -/
def floatFromPair (v : Json) : PFloat :=
  match Json.index v 1 >>= pyFloat with
  | .ok r => r
  | .error _ => .nan

lemma index_neg_one (vs : List Json) (hne : vs ≠ []) :
    Json.index (.arr vs) (-1) = .ok (vs.getLast hne) := by
  have hpos : 0 < vs.length := List.length_pos.mpr hne
  have hc : (0 : ℤ) ≤ (-1 : ℤ) + vs.length ∧ ((-1 : ℤ) + vs.length).toNat < vs.length := by
    constructor <;> omega
  simp only [Json.index, show ((-1 : ℤ) < 0) = True from by norm_num, if_true]
  rw [dif_pos hc]
  rw [List.getLast_eq_getElem]
  simp only [List.get_eq_getElem]
  exact congrArg Except.ok (getElem_congr (by omega))

lemma q_eq_floatFromPair {body : Json} {v : Json}
    (h : qTry body = Json.index v 1 >>= pyFloat) :
    q (.response body) = floatFromPair v := by
  cases hx : Json.index v 1 >>= pyFloat with
  | ok r => rw [q_response_of_qTry_ok (h.trans hx)]; simp [floatFromPair, hx]
  | error e => cases e; rw [q_response_of_qTry_error (h.trans hx)]; simp [floatFromPair, hx]

/-- C1: the Metric Fetcher `q` returns the NaN sentinel — and, being a total
function that catches every exception of its `try` block, never propagates an
error — for each backend-interaction failure: connection timeout, HTTP error
status, non-JSON body, top-level status different from "success", empty
result list, first result entry missing both `value` and `values`, and a
value pair whose numeric string does not parse. -/
theorem q_never_raises_returns_nan :
    q .timeout = .nan ∧
    (∀ code : ℕ, q (.httpError code) = .nan) ∧
    q .badJson = .nan ∧
    (∀ kvs : List (String × Json),
      Json.isSuccess ((kvs.lookup "status").getD .null) = false →
      q (.response (.obj kvs)) = .nan) ∧
    q (.response (promBody "success" (.arr []))) = .nan ∧
    (∀ (kvs : List (String × Json)) (rest : List Json),
      kvs.lookup "value" = none → kvs.lookup "values" = none →
      q (.response (promBody "success" (.arr (.obj kvs :: rest)))) = .nan) ∧
    (∀ (ts : Json) (s : String), pyParseFloat s = none →
      q (.response (promBody "success" (.arr [.obj [("value", .arr [ts, .str s])]]))) = .nan) := by
  refine ⟨rfl, fun code => rfl, rfl, ?_, rfl, ?_, ?_⟩
  · intro kvs h
    exact q_response_of_qTry_ok (qTry_not_success kvs h)
  · intro kvs rest h1 h2
    have h := qTry_promBody_cons kvs rest
    rw [h1, h2] at h
    exact q_response_of_qTry_error (h.trans rfl)
  · intro ts s hp
    have h := qTry_promBody_cons [("value", .arr [ts, .str s])] []
    simp [List.lookup, Json.truthy, Json.index, pyFloat, hp,
          exc_bind_ok, exc_bind_error] at h
    exact q_response_of_qTry_error h

/-- Witness for C1: a non-success status, an entry with neither `value` nor
`values`, and a non-parsable numeric string all yield NaN. -/
theorem q_never_raises_returns_nan_witness :
    q (.response (.obj [("status", Json.str "error")])) = .nan ∧
    q (.response (promBody "success" (.arr [.obj [("job", Json.null)]]))) = .nan ∧
    q (.response (promBody "success"
        (.arr [.obj [("value", Json.arr [Json.num 1, Json.str "abc"])]]))) = .nan :=
  ⟨q_never_raises_returns_nan.2.2.2.1 [("status", Json.str "error")] rfl,
   q_never_raises_returns_nan.2.2.2.2.2.1 [("job", Json.null)] [] rfl rfl,
   q_never_raises_returns_nan.2.2.2.2.2.2 (Json.num 1) "abc" rfl⟩

/-- C8 counterexample: in the entry
`{"value": [], "values": [[1, "7"]]}` the `value` field is present (bound to
the empty list), yet `q` falls back to `values` and returns 7, while
extracting from the `value` pair itself would have yielded NaN — the code's
`or` falls back on any falsy `value`, not only on an absent one. -/
theorem q_value_preference_cex :
    [("value", Json.arr []),
     ("values", Json.arr [Json.arr [Json.num 1, Json.str "7"]])].lookup "value"
        = some (Json.arr []) ∧
    q (.response (promBody "success"
        (.arr [.obj [("value", Json.arr []),
                     ("values", Json.arr [Json.arr [Json.num 1, Json.str "7"]])]])))
      = .num 7 ∧
    floatFromPair (Json.arr []) = .nan := by
  refine ⟨rfl, ?_, rfl⟩
  have h := qTry_promBody_cons
    [("value", Json.arr []), ("values", Json.arr [Json.arr [Json.num 1, Json.str "7"]])] []
  simp [List.lookup, Json.truthy, Json.index, pyFloat, pyParseFloat, pyStrip, splitOnDot,
        digitsVal, Char.isWhitespace, exc_bind_ok] at h
  rw [q_response_of_qTry_ok h]

/-- C8 (amended): for a non-empty result list whose first entry is an
object, `q` extracts `float(pair[1])` from the `value` field whenever that
field is present and truthy; it falls back to the last element of the
`values` list when the `value` field is absent or falsy; and it returns NaN
when both fields are absent. -/
theorem q_value_preference (kvs : List (String × Json)) (rest : List Json) :
    (∀ v : Json, kvs.lookup "value" = some v → v.truthy = true →
      q (.response (promBody "success" (.arr (.obj kvs :: rest)))) = floatFromPair v) ∧
    (∀ vs : List Json, ((kvs.lookup "value").getD .null).truthy = false →
      kvs.lookup "values" = some (.arr vs) → ∀ hne : vs ≠ [],
      q (.response (promBody "success" (.arr (.obj kvs :: rest))))
        = floatFromPair (vs.getLast hne)) ∧
    (kvs.lookup "value" = none → kvs.lookup "values" = none →
      q (.response (promBody "success" (.arr (.obj kvs :: rest)))) = .nan) := by
  refine ⟨?_, ?_, ?_⟩
  · intro v hv ht
    have h := qTry_promBody_cons kvs rest
    rw [hv] at h
    simp only [Option.getD, ht, if_true] at h
    exact q_eq_floatFromPair h
  · intro vs hfalse hvs hne
    have h := qTry_promBody_cons kvs rest
    rw [hfalse] at h
    simp only [Bool.false_eq_true, if_false] at h
    rw [hvs] at h
    simp only [Option.getD] at h
    rw [index_neg_one vs hne, exc_bind_ok] at h
    exact q_eq_floatFromPair h
  · intro h1 h2
    have h := qTry_promBody_cons kvs rest
    rw [h1, h2] at h
    exact q_response_of_qTry_error (h.trans rfl)

/-- Witness for C8: a truthy `value` pair is preferred; with `value` absent
the last element of `values` is used; with both absent the result is NaN. -/
theorem q_value_preference_witness :
    q (.response (promBody "success"
        (.arr [.obj [("value", Json.arr [Json.num 1, Json.str "5"])]])))
      = floatFromPair (Json.arr [Json.num 1, Json.str "5"]) ∧
    q (.response (promBody "success"
        (.arr [.obj [("values", Json.arr [Json.arr [Json.num 1, Json.str "7"]])]])))
      = floatFromPair (Json.arr [Json.num 1, Json.str "7"]) ∧
    q (.response (promBody "success" (.arr [.obj [("job", Json.null)]]))) = .nan :=
  ⟨(q_value_preference [("value", Json.arr [Json.num 1, Json.str "5"])] []).1
      (Json.arr [Json.num 1, Json.str "5"]) rfl rfl,
   (q_value_preference [("values", Json.arr [Json.arr [Json.num 1, Json.str "7"]])] []).2.1
      [Json.arr [Json.num 1, Json.str "7"]] rfl rfl (List.cons_ne_nil _ _),
   (q_value_preference [("job", Json.null)] []).2.2 rfl rfl⟩

/-- C7 counterexample: the healthz payload carries no `backend_url` key —
the configured URL is returned under the key `prom`. -/
theorem healthz_backend_url_cex :
    (healthz PROM_URL_default).lookup "backend_url" = none ∧
    healthz PROM_URL_default =
      [("ok", PyVal.bool true), ("prom", PyVal.str "http://localhost:9090")] :=
  ⟨rfl, rfl⟩

/-- C7 (amended): `healthz` returns, as a pure function of the configuration
alone (no backend call is modelled or needed), the static payload binding
key `ok` to `true` and key `prom` to the configured backend base URL. -/
theorem healthz_static_payload (u : String) :
    (healthz u).lookup "ok" = some (PyVal.bool true) ∧
    (healthz u).lookup "prom" = some (PyVal.str u) ∧
    healthz u = [("ok", PyVal.bool true), ("prom", PyVal.str u)] :=
  ⟨rfl, rfl, rfl⟩

/-- Witness for C6 at cpu = 90, mem = 10, disk = 60: the decomposition, the
per-metric length bounds, and the classification of the emitted CPU insight. -/
theorem metric_order_and_at_most_one_witness :
    generate (.num 90) (.num 10) (.num 60) =
      cpuInsights (.num 90) ++ memInsights (.num 10) ++ diskInsights (.num 60) ++
        [cost_hint] ∧
    (cpuInsights (.num 90)).length ≤ 1 ∧
    (memInsights (.num 10)).length ≤ 1 ∧
    (diskInsights (.num 60)).length ≤ 1 ∧
    (highCpuUsage (.num 90)).description ∈ [noCpuDesc, highCpuDesc, lowCpuDesc] ∧
    (lowMemUsage (.num 10)).description ∈ [noMemDesc, highMemDesc, lowMemDesc] :=
  ⟨(metric_order_and_at_most_one (.num 90) (.num 10) (.num 60)).1,
   (metric_order_and_at_most_one (.num 90) (.num 10) (.num 60)).2.1,
   (metric_order_and_at_most_one (.num 90) (.num 10) (.num 60)).2.2.1,
   (metric_order_and_at_most_one (.num 90) (.num 10) (.num 60)).2.2.2.1,
   (metric_order_and_at_most_one (.num 90) (.num 10) (.num 60)).2.2.2.2.1
     (highCpuUsage (.num 90))
     (by rw [cpuInsights_num_high (by norm_num : (85 : ℚ) < 90)]; exact List.mem_singleton_self _),
   (metric_order_and_at_most_one (.num 90) (.num 10) (.num 60)).2.2.2.2.2.1
     (lowMemUsage (.num 10))
     (by rw [memInsights_num_low (by norm_num : ¬ (85 : ℚ) < 10) (by norm_num : (10 : ℚ) < 30)]
         exact List.mem_singleton_self _)⟩
